import Mathlib

/-!
Verification of the NewsTestAPI application (src/app.py and src/index.py).

The application is a linear script: load credentials from environment
variables (`api_setup`), fetch one headline (`get_news_title`), let the user
pick a provider/model (`llm_selector`), resolve the pair to an LLM backend
(`get_model`), and run an agent on the user query, rendering the returned
text (`main_Agent`).  The functions below are a shallow embedding of that
code: environment variables become an `Env` record of `Option String`,
Python exceptions become `Except PyError`, the external news call becomes a
`NewsOutcome` parameter, the Streamlit selectboxes become choice functions
over the option lists, and the LLM run result becomes a string parameter.
-/

/-- The environment variables read by `api_setup` (os.getenv returns `None`
when a variable is unset). -/
structure Env where
  openai_api_key : Option String
  xai_api_key : Option String
  anthropic_api_key : Option String
  google_api_key : Option String
  news_api_key : Option String
deriving Repr, DecidableEq

/-- Python truthiness of an optional string: `None` and `""` are falsy,
matching `if not key:` in `api_setup`. -/
def falsy : Option String → Bool
  | none => true
  | some s => s == ""

/-- The Python exceptions the embedded code can raise. -/
inductive PyError where
  /-- Raised by api_setup: `ValueError(f"API key for ... not found ...")`. -/
  | missingKey (provider : String)
  /-- Raised by get_model: `ValueError("Unsupported LLM provider: ...")`. -/
  | unsupportedProvider (provider : String)
  /-- A Python `KeyError` from a dict subscript. -/
  | keyError (key : String)
  /-- Raised at import of index.py: `ValueError("Missing API key")`. -/
  | missingApiKey
deriving Repr, DecidableEq

/-- The dict returned by `api_setup`, keyed "OpenAI", "xAI", "Claude",
"Gemini", "News" in insertion order. -/
structure ApiKeys where
  openai : String
  xai : String
  claude : String
  gemini : String
  news : String
deriving Repr, DecidableEq

/-- Function api_setup from app.py: reads the five environment variables and raises
`ValueError` at the first falsy one, iterating in dict insertion order. -/
def api_setup (env : Env) : Except PyError ApiKeys :=
  if falsy env.openai_api_key then Except.error (PyError.missingKey "OpenAI")
  else if falsy env.xai_api_key then Except.error (PyError.missingKey "xAI")
  else if falsy env.anthropic_api_key then Except.error (PyError.missingKey "Claude")
  else if falsy env.google_api_key then Except.error (PyError.missingKey "Gemini")
  else if falsy env.news_api_key then Except.error (PyError.missingKey "News")
  else Except.ok
    ⟨env.openai_api_key.getD "", env.xai_api_key.getD "", env.anthropic_api_key.getD "",
      env.google_api_key.getD "", env.news_api_key.getD ""⟩

/-- True when at least one of the five keys is falsy, i.e. exactly when
`api_setup` raises. -/
def anyKeyMissing (env : Env) : Bool :=
  falsy env.openai_api_key || falsy env.xai_api_key || falsy env.anthropic_api_key ||
    falsy env.google_api_key || falsy env.news_api_key

/-- An LLM backend instance as constructed by `get_model`: one of the four
SDK classes, holding the model id and api_key passed to its constructor. -/
inductive Backend where
  | OpenAIChat (id : String) (api_key : String)
  | xAI (id : String) (api_key : String)
  | Claude (id : String) (api_key : String)
  | Gemini (id : String) (api_key : String)
deriving Repr, DecidableEq

/-- The model id a backend instance is bound to. -/
def Backend.modelId : Backend → String
  | .OpenAIChat i _ => i
  | .xAI i _ => i
  | .Claude i _ => i
  | .Gemini i _ => i

/-- The credential a backend instance is bound to. -/
def Backend.apiKey : Backend → String
  | .OpenAIChat _ k => k
  | .xAI _ k => k
  | .Claude _ k => k
  | .Gemini _ k => k

/-- The provider name a backend instance belongs to. -/
def Backend.providerName : Backend → String
  | .OpenAIChat _ _ => "OpenAIChat"
  | .xAI _ _ => "xAI"
  | .Claude _ _ => "Claude"
  | .Gemini _ _ => "Gemini"

/-- The credential `get_model` uses for a given provider name: provider
"OpenAIChat" uses dict key "OpenAI", the others use their own names. -/
def ApiKeys.credFor (ks : ApiKeys) (p : String) : Option String :=
  if p = "OpenAIChat" then some ks.openai
  else if p = "xAI" then some ks.xai
  else if p = "Claude" then some ks.claude
  else if p = "Gemini" then some ks.gemini
  else none

/-- The environment variable holding the own credential of a provider. -/
def Env.keyFor (env : Env) (p : String) : Option String :=
  if p = "OpenAIChat" then env.openai_api_key
  else if p = "xAI" then env.xai_api_key
  else if p = "Claude" then env.anthropic_api_key
  else if p = "Gemini" then env.google_api_key
  else none

/-- Function get_model from app.py: a `None` selection yields `None`; otherwise
`api_setup()` runs first (its `ValueError` propagates), then the provider
name is dispatched over the four SDK classes, any other name raising
`ValueError("Unsupported LLM provider: ...")`. -/
def get_model (env : Env) (selection : Option (String × String)) :
    Except PyError (Option Backend) :=
  match selection with
  | none => Except.ok none
  | some (llm_provider, selected_model) =>
    match api_setup env with
    | Except.error e => Except.error e
    | Except.ok api_keys =>
      if llm_provider = "OpenAIChat" then
        Except.ok (some (Backend.OpenAIChat selected_model api_keys.openai))
      else if llm_provider = "xAI" then
        Except.ok (some (Backend.xAI selected_model api_keys.xai))
      else if llm_provider = "Claude" then
        Except.ok (some (Backend.Claude selected_model api_keys.claude))
      else if llm_provider = "Gemini" then
        Except.ok (some (Backend.Gemini selected_model api_keys.gemini))
      else Except.error (PyError.unsupportedProvider llm_provider)

/-- Outcome of the external news call inside the try block of get_news_title:
either some exception was raised (transport, parsing, a missing dict key in
the response, ...), or a response arrived whose `results` field is absent
(`none`), or a list of article titles. -/
inductive NewsOutcome where
  | exn
  | response (results : Option (List String))
deriving Repr, DecidableEq

/-- Function get_news_title from app.py: inside one `try`, it sleeps, calls
`api_setup()` (so a missing key raises here and is caught), queries the news
API, returns `""` when `results` is falsy, else the first title; the
`except` clause turns every exception into `""` after showing `st.error`. -/
def get_news_title (env : Env) (o : NewsOutcome) : String :=
  match api_setup env with
  | Except.error _ => ""
  | Except.ok _ =>
    match o with
    | NewsOutcome.exn => ""
    | NewsOutcome.response none => ""
    | NewsOutcome.response (some []) => ""
    | NewsOutcome.response (some (t :: _)) => t

/-- The static provider/model menu in `llm_selector`. -/
def llm_models : List (String × List String) :=
  [("OpenAIChat", ["gpt-4o", "gpt-4o-mini", "gpt-3.5-turbo"]),
   ("xAI", ["grok-2-1212", "grok-beta"]),
   ("Claude", ["claude-3-7-sonnet-20250219", "claude-3-5-haiku-20241022"]),
   ("Gemini", ["gemini-2.0-flash", "gemini-1.5-flash", "gemini-1.5-flash-8b"])]

/-- Function llm_selector from app.py.  The two Streamlit selectboxes are modelled
by choice functions `chooseP`/`chooseM` that pick one element of the option
list they are shown.  Placeholder choices return `None`; a `ValueError` from
`api_setup` is caught and also returns `None`; a provider string that is not
a key of `llm_models` would raise `KeyError` at the dict subscript. -/
def llm_selector (chooseP chooseM : List String → String) (env : Env) :
    Except PyError (Option (String × String)) :=
  let provider_options := "Select an LLM Provider" :: llm_models.map Prod.fst
  let selected_llm := chooseP provider_options
  if selected_llm = "Select an LLM Provider" then Except.ok none
  else
    match List.lookup selected_llm llm_models with
    | none => Except.error (PyError.keyError selected_llm)
    | some models =>
      let llm_options := "Select a Model" :: models
      let selected_model := chooseM llm_options
      if selected_model = "Select a Model" then Except.ok none
      else
        match api_setup env with
        | Except.error _ => Except.ok none
        | Except.ok _ => Except.ok (some (selected_llm, selected_model))

/-- What `main_Agent` does with its inputs: show the "enter a headline"
info box, show the "no LLM model selected" error, show the "error
initializing" error, or build the agent and render the
content. -/
inductive AgentOutcome where
  | infoEnterHeadline
  | errorNoModel
  | errorInitModel
  | rendered (model : Backend) (content : String)
deriving Repr, DecidableEq

/-- Function main_Agent from app.py.  Here `llmResponse` stands for the free-form text
`run_result.content` the backend returns; the code displays it with
`st.markdown` without parsing or checking it.  An empty query or a `None`
selection short-circuits before `get_model`; a `ValueError` raised by
`get_model` propagates uncaught. -/
def main_Agent (env : Env) (llmResponse user_query : String)
    (selection : Option (String × String)) : Except PyError AgentOutcome :=
  if user_query = "" then Except.ok AgentOutcome.infoEnterHeadline
  else
    match selection with
    | none => Except.ok AgentOutcome.errorNoModel
    | some sel =>
      match get_model env (some sel) with
      | Except.error e => Except.error e
      | Except.ok none => Except.ok AgentOutcome.errorInitModel
      | Except.ok (some llm_model) =>
        Except.ok (AgentOutcome.rendered llm_model llmResponse)

/-- What get_user_input from app.py shows: the fetched headline (or a warning
when it is empty) and returns whatever the user typed in the text box. -/
structure UserInputView where
  headline : String
  user_query : String
deriving Repr, DecidableEq

/-- Function get_user_input from app.py, returning both the headline it displayed
and the typed query it hands to the caller. -/
def get_user_input (env : Env) (o : NewsOutcome) (typed : String) : UserInputView :=
  ⟨get_news_title env o, typed⟩

/-- Function main from app.py: render the sidebar selector, read the user input,
then run the agent.  A `KeyError` escaping `llm_selector` or a `ValueError`
escaping `get_model` inside `main_Agent` crashes the script. -/
def main_run (env : Env) (o : NewsOutcome)
    (chooseP chooseM : List String → String)
    (typed llmResponse : String) : Except PyError AgentOutcome :=
  match llm_selector chooseP chooseM env with
  | Except.error e => Except.error e
  | Except.ok selection =>
    let view := get_user_input env o typed
    main_Agent env llmResponse view.user_query selection

/-- The import-time check in index.py: `API_KEY = os.getenv("API_KEY")`
followed by `raise ValueError("Missing API key")` when it is falsy. -/
def index_startup (api_key : Option String) : Except PyError Unit :=
  if falsy api_key then Except.error PyError.missingApiKey else Except.ok ()

/-- An environment with all five keys present. -/
def envAll : Env :=
  ⟨some "sk-openai", some "sk-xai", some "sk-anthropic", some "sk-google", some "sk-news"⟩

/-- An environment where every LLM credential is present but NEWS_API_KEY
is unset. -/
def envNoNews : Env :=
  ⟨some "sk-openai", some "sk-xai", some "sk-anthropic", some "sk-google", none⟩

/-- Claim C7: whenever the user-supplied headline is the empty string,
`main_Agent` returns after showing the "please enter a headline" info box;
it never reaches `get_model`, the agent construction, or the LLM run, for
any environment, selection, or backend response. -/
theorem main_Agent_empty_query (env : Env) (llmResponse : String)
    (selection : Option (String × String)) :
    main_Agent env llmResponse "" selection = Except.ok AgentOutcome.infoEnterHeadline := by
  simp [main_Agent]

/-- Claim C8: whatever free-form text the backend returns is rendered to
the user unchanged: if `main_Agent` reaches the rendering step, the content
displayed is exactly the response of the backend, with no parsing, schema check,
or rejection in between. -/
theorem main_Agent_renders_unchanged (env : Env) (llmResponse user_query : String)
    (selection : Option (String × String)) (b : Backend) (c : String)
    (h : main_Agent env llmResponse user_query selection =
      Except.ok (AgentOutcome.rendered b c)) :
    c = llmResponse := by
  unfold main_Agent at h
  split at h
  · simp at h
  · split at h
    · simp at h
    · split at h
      · simp at h
      · simp at h
      · simp at h
        exact h.2.symm

/-- Witness for C8 at a concrete input: a full environment, an OpenAIChat
selection and an arbitrary response text. -/
theorem main_Agent_renders_unchanged_witness :
    main_Agent envAll "raw LLM text" "Fed hints at June rate pause"
      (some ("OpenAIChat", "gpt-4o")) =
      Except.ok (AgentOutcome.rendered (Backend.OpenAIChat "gpt-4o" "sk-openai")
        "raw LLM text") ∧
    ("raw LLM text" : String) = "raw LLM text" :=
  ⟨by rfl,
    main_Agent_renders_unchanged envAll "raw LLM text" "Fed hints at June rate pause"
      (some ("OpenAIChat", "gpt-4o")) (Backend.OpenAIChat "gpt-4o" "sk-openai")
      "raw LLM text" (by rfl)⟩

/-- Claim C3: `get_news_title` always returns a string (it is a total
function into `String`, so no exception propagates and no `None` is
returned): on every failure outcome — an exception, a response without a
`results` field, or an empty `results` list — it returns `""`, and
otherwise it returns the title of the first result. -/
theorem get_news_title_total (env : Env) (o : NewsOutcome) :
    get_news_title env o = "" ∨
    ∃ t ts ks, o = NewsOutcome.response (some (t :: ts)) ∧
      api_setup env = Except.ok ks ∧ get_news_title env o = t := by
  cases hA : api_setup env with
  | error e => left; simp [get_news_title, hA]
  | ok ks =>
    cases o with
    | exn => left; simp [get_news_title, hA]
    | response results =>
      cases results with
      | none => left; simp [get_news_title, hA]
      | some l =>
        cases l with
        | nil => left; simp [get_news_title, hA]
        | cons t ts =>
          right
          exact ⟨t, ts, ks, rfl, rfl, by simp [get_news_title, hA]⟩

/-- Helper: whenever any of the five keys is falsy, `api_setup` raises a
missing-key `ValueError`. -/
theorem api_setup_missing (env : Env) (h : anyKeyMissing env = true) :
    ∃ prov, api_setup env = Except.error (PyError.missingKey prov) := by
  unfold api_setup
  split_ifs with h1 h2 h3 h4 h5
  · exact ⟨"OpenAI", rfl⟩
  · exact ⟨"xAI", rfl⟩
  · exact ⟨"Claude", rfl⟩
  · exact ⟨"Gemini", rfl⟩
  · exact ⟨"News", rfl⟩
  · exfalso
    simp [anyKeyMissing, h1, h2, h3, h4, h5] at h

/-- Helper: a falsy credential for a supported provider makes `anyKeyMissing`
true. -/
theorem anyKeyMissing_of_keyFor (env : Env) (p : String)
    (hp : p = "OpenAIChat" ∨ p = "xAI" ∨ p = "Claude" ∨ p = "Gemini")
    (hk : falsy (env.keyFor p) = true) : anyKeyMissing env = true := by
  rcases hp with h | h | h | h <;> subst h <;>
    simp [Env.keyFor] at hk <;> simp [anyKeyMissing, hk]

/-- Counterexample to C1 as stated: in `envNoNews` the OpenAIChat credential
is present, yet `get_model` raises the missing-News `ValueError` instead of
returning a backend, because `api_setup` revalidates all five keys. -/
theorem get_model_fails_despite_present_credential :
    falsy envNoNews.openai_api_key = false ∧
    get_model envNoNews (some ("OpenAIChat", "gpt-4o")) =
      Except.error (PyError.missingKey "News") :=
  ⟨rfl, rfl⟩

/-- Claim C1 (amended): for each of the four supported providers, when
`api_setup` succeeds (all five keys present) `get_model` returns a backend
bound to exactly the requested model id and the credential of that provider; and
when the own credential of the chosen provider is absent, selection fails with a
`ValueError` before any network request (the embedding performs none). -/
theorem get_model_bound_when_all_keys (env : Env) (p m : String)
    (hp : p = "OpenAIChat" ∨ p = "xAI" ∨ p = "Claude" ∨ p = "Gemini") :
    (∀ ks, api_setup env = Except.ok ks →
      ∃ b, get_model env (some (p, m)) = Except.ok (some b) ∧
        b.providerName = p ∧ b.modelId = m ∧ some b.apiKey = ks.credFor p) ∧
    (falsy (env.keyFor p) = true →
      ∃ e, get_model env (some (p, m)) = Except.error e) := by
  constructor
  · intro ks hks
    rcases hp with h | h | h | h <;> subst h
    · exact ⟨Backend.OpenAIChat m ks.openai, by simp [get_model, hks], rfl, rfl,
        by simp [ApiKeys.credFor, Backend.apiKey]⟩
    · exact ⟨Backend.xAI m ks.xai, by simp [get_model, hks], rfl, rfl,
        by simp [ApiKeys.credFor, Backend.apiKey]⟩
    · exact ⟨Backend.Claude m ks.claude, by simp [get_model, hks], rfl, rfl,
        by simp [ApiKeys.credFor, Backend.apiKey]⟩
    · exact ⟨Backend.Gemini m ks.gemini, by simp [get_model, hks], rfl, rfl,
        by simp [ApiKeys.credFor, Backend.apiKey]⟩
  · intro hk
    obtain ⟨prov, hE⟩ := api_setup_missing env (anyKeyMissing_of_keyFor env p hp hk)
    exact ⟨PyError.missingKey prov, by simp [get_model, hE]⟩

/-- Witness for the amended C1 at a concrete input: all keys present and an
OpenAIChat selection. -/
theorem get_model_bound_when_all_keys_witness :
    ∃ b, get_model envAll (some ("OpenAIChat", "gpt-4o")) = Except.ok (some b) ∧
      b.providerName = "OpenAIChat" ∧ b.modelId = "gpt-4o" ∧
      some b.apiKey =
        ApiKeys.credFor
          ⟨"sk-openai", "sk-xai", "sk-anthropic", "sk-google", "sk-news"⟩ "OpenAIChat" :=
  (get_model_bound_when_all_keys envAll "OpenAIChat" "gpt-4o" (Or.inl rfl)).1 _ rfl

/-- Claim C2: for a provider name outside the supported four, `get_model`
never returns a backend, and when the credentials load successfully it
raises exactly the unsupported-provider `ValueError`. -/
theorem get_model_unsupported (env : Env) (p m : String)
    (hp : ¬(p = "OpenAIChat" ∨ p = "xAI" ∨ p = "Claude" ∨ p = "Gemini")) :
    (∀ b, get_model env (some (p, m)) ≠ Except.ok (some b)) ∧
    (∀ ks, api_setup env = Except.ok ks →
      get_model env (some (p, m)) = Except.error (PyError.unsupportedProvider p)) := by
  push_neg at hp
  obtain ⟨h1, h2, h3, h4⟩ := hp
  constructor
  · intro b hb
    cases hA : api_setup env with
    | error e => simp [get_model, hA] at hb
    | ok ks => simp [get_model, hA, h1, h2, h3, h4] at hb
  · intro ks hks
    simp [get_model, hks, h1, h2, h3, h4]

/-- Witness for C2 at a concrete input: provider "Mistral" with all keys
present. -/
theorem get_model_unsupported_witness :
    get_model envAll (some ("Mistral", "mistral-large")) =
      Except.error (PyError.unsupportedProvider "Mistral") :=
  (get_model_unsupported envAll "Mistral" "mistral-large" (by decide)).2 _ rfl

/-- Claim C9: even when the own credential of the chosen provider is present,
`get_model` fails with a missing-key `ValueError` as soon as any of the
five keys (including the news key) is absent, because `api_setup` checks
all five on every call. -/
theorem get_model_checks_all_five (env : Env) (p m : String)
    (hp : p = "OpenAIChat" ∨ p = "xAI" ∨ p = "Claude" ∨ p = "Gemini")
    (hown : falsy (env.keyFor p) = false)
    (hmiss : anyKeyMissing env = true) :
    ∃ prov, get_model env (some (p, m)) = Except.error (PyError.missingKey prov) := by
  obtain ⟨prov, hE⟩ := api_setup_missing env hmiss
  exact ⟨prov, by simp [get_model, hE]⟩

/-- Witness for C9 at a concrete input: OpenAIChat credential present,
NEWS_API_KEY absent. -/
theorem get_model_checks_all_five_witness :
    falsy (envNoNews.keyFor "OpenAIChat") = false ∧
    anyKeyMissing envNoNews = true ∧
    ∃ prov, get_model envNoNews (some ("OpenAIChat", "gpt-4o")) =
      Except.error (PyError.missingKey prov) :=
  ⟨rfl, rfl,
    get_model_checks_all_five envNoNews "OpenAIChat" "gpt-4o" (Or.inl rfl) rfl rfl⟩

/-- A backend response text whose options array has only 3 entries. -/
def threeOptionContent : String :=
  "\x7b \"options\": [ \x7b \"id\": \"A\" \x7d, \x7b \"id\": \"B\" \x7d, \x7b \"id\": \"C\" \x7d ] \x7d"

/-- A backend response text with 4 option entries, ids A through D. -/
def fourOptionContent : String :=
  "\x7b \"options\": [ \x7b \"id\": \"A\" \x7d, \x7b \"id\": \"B\" \x7d, \x7b \"id\": \"C\" \x7d, \x7b \"id\": \"D\" \x7d ] \x7d"

/-- A backend response text whose date_pattern is a past date relative to
the reference date 2025-06-01. -/
def pastDateContent : String :=
  "\x7b \"date_pattern\": \"2024-01-01\", \"question\": \"Will it happen?\" \x7d"

/-- Counterexample to C4 as stated: a backend response whose options list
has only 3 entries is rendered verbatim by `main_Agent` — no rejection, no
`SchemaViolationError` (the code has no such error and no parse step). -/
theorem three_options_rendered_not_rejected :
    main_Agent envAll threeOptionContent "Fed hints at June rate pause"
      (some ("OpenAIChat", "gpt-4o")) =
      Except.ok (AgentOutcome.rendered (Backend.OpenAIChat "gpt-4o" "sk-openai")
        threeOptionContent) := rfl

/-- Claim C4 (amended): the program performs no prediction-response
validation: whenever `main_Agent` reaches the backend, a 3-entry-options
response and a 4-entry-options response are both rendered as-is, neither
rejected nor altered — the strict validator and `SchemaViolationError` are
recommendations absent from the code. -/
theorem no_schema_validation (env : Env) (q : String) (sel : String × String)
    (b : Backend) (hq : q ≠ "") (hm : get_model env (some sel) = Except.ok (some b)) :
    main_Agent env threeOptionContent q (some sel) =
      Except.ok (AgentOutcome.rendered b threeOptionContent) ∧
    main_Agent env fourOptionContent q (some sel) =
      Except.ok (AgentOutcome.rendered b fourOptionContent) := by
  constructor <;> simp [main_Agent, hq, hm]

/-- Witness for the amended C4 at a concrete input: a Gemini selection with
all keys present. -/
theorem no_schema_validation_witness :
    main_Agent envAll threeOptionContent "Oil climbs" (some ("Gemini", "gemini-2.0-flash")) =
      Except.ok (AgentOutcome.rendered (Backend.Gemini "gemini-2.0-flash" "sk-google")
        threeOptionContent) ∧
    main_Agent envAll fourOptionContent "Oil climbs" (some ("Gemini", "gemini-2.0-flash")) =
      Except.ok (AgentOutcome.rendered (Backend.Gemini "gemini-2.0-flash" "sk-google")
        fourOptionContent) :=
  no_schema_validation envAll "Oil climbs" ("Gemini", "gemini-2.0-flash")
    (Backend.Gemini "gemini-2.0-flash" "sk-google") (by decide) rfl

/-- Counterexample to C5 as stated: a backend response whose date_pattern is
the past date 2024-01-01 is rendered verbatim — the code holds no reference
date and never rolls a date forward. -/
theorem past_date_not_rolled_forward :
    main_Agent envAll pastDateContent "Fed hints at June rate pause"
      (some ("Claude", "claude-3-5-haiku-20241022")) =
      Except.ok (AgentOutcome.rendered
        (Backend.Claude "claude-3-5-haiku-20241022" "sk-anthropic") pastDateContent) := rfl

/-- Claim C5 (amended): the Prediction Formatter performs no date
adjustment: the code carries no reference date and passes a response whose
date_pattern is a past date through unchanged; the date-forwarding rule is
only prompt guidance, not enforced by code. -/
theorem no_date_forwarding (env : Env) (q : String) (sel : String × String)
    (b : Backend) (hq : q ≠ "") (hm : get_model env (some sel) = Except.ok (some b)) :
    main_Agent env pastDateContent q (some sel) =
      Except.ok (AgentOutcome.rendered b pastDateContent) := by
  simp [main_Agent, hq, hm]

/-- Witness for the amended C5 at a concrete input: an xAI selection with
all keys present. -/
theorem no_date_forwarding_witness :
    main_Agent envAll pastDateContent "Markets rally" (some ("xAI", "grok-beta")) =
      Except.ok (AgentOutcome.rendered (Backend.xAI "grok-beta" "sk-xai")
        pastDateContent) :=
  no_date_forwarding envAll "Markets rally" ("xAI", "grok-beta")
    (Backend.xAI "grok-beta" "sk-xai") (by decide) rfl

/-- A concrete selectbox behaviour: pick the second option when one exists
(the first real entry after the placeholder), else the first. -/
def secondChoice (l : List String) : String := l.getD 1 (l.headD "")

/-- Helper: `secondChoice` always picks an element of a nonempty list. -/
theorem secondChoice_mem (l : List String) (h : l ≠ []) : secondChoice l ∈ l := by
  cases l with
  | nil => exact absurd rfl h
  | cons a t =>
    cases t with
    | nil => simp [secondChoice]
    | cons b t2 => simp [secondChoice]

/-- Counterexample to C6 as stated: with NEWS_API_KEY absent and every other
key present, a whole run of `main` completes without raising: `llm_selector`
catches the `ValueError` and yields `None`, the headline fetch degrades to
`""`, and the agent step merely reports that no model is selected.  The
absence is re-detected inside each call during the run, not raised once at
startup. -/
theorem missing_key_not_fatal_at_startup :
    main_run envNoNews (NewsOutcome.response (some ["Some headline"]))
      secondChoice secondChoice "Fed hints at June rate pause" "response text" =
      Except.ok AgentOutcome.errorNoModel := rfl

/-- Helper: a key that occurs in the first components of an association
list can be looked up. -/
theorem lookup_of_mem_map_fst {β : Type} (l : List (String × β)) (p : String)
    (h : p ∈ l.map Prod.fst) : ∃ ms, List.lookup p l = some ms := by
  induction l with
  | nil => simp at h
  | cons kv t ih =>
    by_cases hk : p == kv.1
    · exact ⟨kv.2, by simp [List.lookup, hk]⟩
    · have hmem : p ∈ t.map Prod.fst := by
        simp only [List.map_cons, List.mem_cons] at h
        rcases h with h1 | h1
        · exact absurd (by simp [h1]) hk
        · exact h1
      obtain ⟨ms, hms⟩ := ih hmem
      exact ⟨ms, by simp [List.lookup, hk, hms]⟩

/-- Claim C6 (amended): app.py validates all five keys together inside each
call that needs them (per user interaction), not once at startup: when any
key is absent, `api_setup` raises a missing-key `ValueError` wherever it is
called, `get_news_title` swallows it and returns `""`, and `llm_selector`
swallows it and never returns a selection — the run is not halted.  Only
index.py raises fatally at import time when its `API_KEY` is absent. -/
theorem api_keys_checked_per_call (env : Env) (o : NewsOutcome)
    (cp cm : List String → String) (p m : String)
    (h : anyKeyMissing env = true) :
    (∃ prov, api_setup env = Except.error (PyError.missingKey prov)) ∧
    get_news_title env o = "" ∧
    llm_selector cp cm env ≠ Except.ok (some (p, m)) ∧
    index_startup none = Except.error PyError.missingApiKey := by
  obtain ⟨prov, hE⟩ := api_setup_missing env h
  refine ⟨⟨prov, hE⟩, by simp [get_news_title, hE], ?_, rfl⟩
  intro hcontra
  simp only [llm_selector, hE] at hcontra
  split at hcontra
  · simp at hcontra
  · split at hcontra
    · simp at hcontra
    · split at hcontra
      · simp at hcontra
      · simp at hcontra

/-- Witness for the amended C6 at a concrete input: NEWS_API_KEY absent,
all other keys present. -/
theorem api_keys_checked_per_call_witness :
    anyKeyMissing envNoNews = true ∧
    get_news_title envNoNews (NewsOutcome.response (some ["Oil climbs"])) = "" ∧
    llm_selector secondChoice secondChoice envNoNews ≠
      Except.ok (some ("OpenAIChat", "gpt-4o")) :=
  ⟨rfl,
    (api_keys_checked_per_call envNoNews (NewsOutcome.response (some ["Oil climbs"]))
      secondChoice secondChoice "OpenAIChat" "gpt-4o" rfl).2.1,
    (api_keys_checked_per_call envNoNews (NewsOutcome.response (some ["Oil climbs"]))
      secondChoice secondChoice "OpenAIChat" "gpt-4o" rfl).2.2.1⟩

/-- Claim C10: whatever the two selectboxes pick from the lists they are
shown and whatever the environment holds, `llm_selector` returns either
`None` or a pair whose provider is a key of the static `llm_models` map and
whose model belongs to the static list of that provider; no other value shape is
possible — placeholder choices and credential failures all yield `None`. -/
theorem llm_selector_shape (cp cm : List String → String) (env : Env)
    (hcp : ∀ l, l ≠ [] → cp l ∈ l) (hcm : ∀ l, l ≠ [] → cm l ∈ l) :
    llm_selector cp cm env = Except.ok none ∨
    ∃ p m models, llm_selector cp cm env = Except.ok (some (p, m)) ∧
      List.lookup p llm_models = some models ∧ m ∈ models := by
  by_cases h1 : cp ("Select an LLM Provider" :: llm_models.map Prod.fst) =
      "Select an LLM Provider"
  · left
    simp [llm_selector, h1]
  · have hpm : cp ("Select an LLM Provider" :: llm_models.map Prod.fst) ∈
        llm_models.map Prod.fst := by
      rcases List.mem_cons.mp (hcp _ (by simp)) with h | h
      · exact absurd h h1
      · exact h
    obtain ⟨models, hlk⟩ := lookup_of_mem_map_fst llm_models _ hpm
    by_cases h2 : cm ("Select a Model" :: models) = "Select a Model"
    · left
      simp [llm_selector, h1, hlk, h2]
    · cases hA : api_setup env with
      | error e =>
        left
        simp [llm_selector, h1, hlk, h2, hA]
      | ok ks =>
        have hmm : cm ("Select a Model" :: models) ∈ models := by
          rcases List.mem_cons.mp (hcm _ (by simp)) with h | h
          · exact absurd h h2
          · exact h
        right
        exact ⟨_, _, models, by simp [llm_selector, h1, hlk, h2, hA], hlk, hmm⟩

/-- Witness for C10 at a concrete input: both selectboxes pick their second
entry ("OpenAIChat" and then "gpt-4o") with all keys present. -/
theorem llm_selector_shape_witness :
    llm_selector secondChoice secondChoice envAll = Except.ok none ∨
    ∃ p m models, llm_selector secondChoice secondChoice envAll = Except.ok (some (p, m)) ∧
      List.lookup p llm_models = some models ∧ m ∈ models :=
  llm_selector_shape secondChoice secondChoice envAll
    (fun l h => secondChoice_mem l h) (fun l h => secondChoice_mem l h)
